import Mathlib

/-!
Verification of the security subsystem of the highload-microservice
repository: the DDoS protection middleware (internal/middleware/ddos.go)
and the security auditing package (SecurityAuditor, the three analyzers,
SecurityMetrics).

Time is embedded as `Int` nanoseconds (Go `time.Time` / `time.Duration`);
`a.After(b)` becomes `b < a` and `a.Sub(b) < d` becomes `a - b < d`.
Go maps with string keys are embedded as association lists with Go map
semantics: indexing a missing key yields the zero value (`[]` for slices),
assignment overwrites in place, and `delete` removes the key.
-/

namespace HighloadSec

/-- Go map read with the comma-ok idiom: `Option` result distinguishes a
present key from an absent one. -/
def assocGet {α : Type} (m : List (String × α)) (k : String) : Option α :=
  (m.find? (fun p => p.1 == k)).map (fun p => p.2)

/-- Go map indexing of a slice-valued map: a missing key reads as the nil
slice, i.e. `[]`. -/
def goSliceGet {α : Type} (m : List (String × List α)) (k : String) : List α :=
  (assocGet m k).getD []

/-- Go map assignment `m[k] = v`: overwrite the binding if present,
otherwise add it. -/
def assocSet {α : Type} (m : List (String × α)) (k : String) (v : α) :
    List (String × α) :=
  match m with
  | [] => [(k, v)]
  | (k2, v2) :: rest =>
      if k2 == k then (k, v) :: rest else (k2, v2) :: assocSet rest k v

/-- Go `delete(m, k)`. -/
def assocDel {α : Type} (m : List (String × α)) (k : String) :
    List (String × α) :=
  m.filter (fun p => p.1 != k)

/-- Key-present test (the `exists` of the comma-ok read). -/
def assocHas {α : Type} (m : List (String × α)) (k : String) : Bool :=
  (assocGet m k).isSome

theorem assocGet_nil {α : Type} (k : String) :
    assocGet ([] : List (String × α)) k = none := rfl

theorem assocGet_cons_self {α : Type} (k : String) (v : α)
    (m : List (String × α)) : assocGet ((k, v) :: m) k = some v := by
  simp [assocGet]

theorem assocGet_set_self {α : Type} (m : List (String × α)) (k : String)
    (v : α) : assocGet (assocSet m k v) k = some v := by
  induction m with
  | nil => simp [assocSet, assocGet]
  | cons p rest ih =>
      by_cases h : p.1 == k
      · simp [assocSet, h, assocGet]
      · simpa [assocSet, h, assocGet, List.find?] using ih

theorem assocGet_del_self {α : Type} (m : List (String × α)) (k : String) :
    assocGet (assocDel m k) k = none := by
  induction m with
  | nil => rfl
  | cons p rest ih =>
      simp only [assocDel] at ih ⊢
      by_cases h : p.1 == k
      · simpa [List.filter_cons, bne, h] using ih
      · simp only [List.filter_cons, bne, h, Bool.not_false, if_pos]
        simp only [assocGet, List.find?, h] at ih ⊢
        exact ih

/-!
## DDoS protection (internal/middleware/ddos.go)

The tracker state is the `requests` map together with the configuration
fields.  `Protect` is modelled as a function from the state, the client
address and the current time to the allow/deny decision and the new state
(`true` = the request is allowed, i.e. the middleware calls c.Next()).
-/

/-- State and configuration of the DDoSProtection middleware
(ddos.go lines 12-22). -/
structure DDoSProtection where
  requests : List (String × List Int)
  maxRequests : Nat
  windowDuration : Int
  blockDuration : Int
deriving DecidableEq

/-- The default configuration installed by NewDDoSProtection
(ddos.go lines 31-44): 100 requests per 1-minute window, 5-minute block,
durations in nanoseconds. -/
def ddosDefault : DDoSProtection :=
  { requests := []
    maxRequests := 100
    windowDuration := 60000000000
    blockDuration := 300000000000 }

/-- DDoSProtection.isBlocked (ddos.go lines 97-115): the address counts as
blocked exactly when it has recorded requests and the most recent one is
within blockDuration of now. -/
def isBlocked (d : DDoSProtection) (ip : String) (now : Int) : Bool :=
  match assocGet d.requests ip with
  | none => false
  | some requests =>
      match requests.getLast? with
      | none => false
      | some lastRequest => decide (now - lastRequest < d.blockDuration)

/-- DDoSProtection.recordRequest (ddos.go lines 118-124): append the
current timestamp to the address's slice. -/
def recordRequest (d : DDoSProtection) (ip : String) (now : Int) :
    DDoSProtection :=
  { d with requests :=
      assocSet d.requests ip (goSliceGet d.requests ip ++ [now]) }

/-- DDoSProtection.shouldBlock (ddos.go lines 127-147): count the
address's requests inside the window and compare with maxRequests. -/
def shouldBlock (d : DDoSProtection) (ip : String) (now : Int) : Bool :=
  match assocGet d.requests ip with
  | none => false
  | some requests =>
      decide (d.maxRequests <
        (requests.countP (fun t => decide (now - d.windowDuration < t))))

/-- DDoSProtection.blockIP (ddos.go lines 150-156): identical to
recordRequest — appends one more marker timestamp. -/
def blockIP (d : DDoSProtection) (ip : String) (now : Int) : DDoSProtection :=
  { d with requests :=
      assocSet d.requests ip (goSliceGet d.requests ip ++ [now]) }

/-- The handler body of DDoSProtection.Protect (ddos.go lines 61-94).
Result `(allowed, newState)`; `allowed = false` is the 429 deny path. -/
def protect (d : DDoSProtection) (ip : String) (now : Int) :
    Bool × DDoSProtection :=
  if isBlocked d ip now then
    (false, d)
  else
    let d1 := recordRequest d ip now
    if shouldBlock d1 ip now then
      (false, blockIP d1 ip now)
    else
      (true, d1)

/-- One sweep of the cleanup ticker body (ddos.go lines 163-183): for every
address drop entries at or before now - 2*blockDuration, deleting the
address when nothing remains. -/
def cleanupSweep (d : DDoSProtection) (now : Int) : DDoSProtection :=
  { d with requests := d.requests.filterMap (fun p =>
      let newRequests :=
        p.2.filter (fun t => decide (now - d.blockDuration * 2 < t))
      if newRequests.isEmpty then none else some (p.1, newRequests)) }

/-!
## Security event model (internal/security, part of src/unnamed/part_012)
-/

/-- SecurityEventType: the closed enumeration of event kinds declared in
the security package. -/
inductive SecurityEventType where
  | loginSuccess | loginFailure | logout | tokenRefresh | tokenExpired
  | invalidToken
  | accessGranted | accessDenied | privilegeEscalation
  | rateLimitExceeded | ddosDetected | ipBlocked
  | validationFailed | sqlInjectionAttempt | xssAttempt | suspiciousInput
  | apiKeyCreated | apiKeyUsed | apiKeyRevoked
  | systemStartup | systemShutdown | configChange
  | suspiciousUserAgent | multipleFailures | unusualActivity
deriving DecidableEq

/-- SecuritySeverity: low / medium / high / critical. -/
inductive SecuritySeverity where
  | low | medium | high | critical
deriving DecidableEq

/-- SecurityEvent.  Timestamps are Int nanoseconds; the Go zero time is 0
(Timestamp.IsZero), a Go nil Details map is `none` and an allocated map is
`some` of its bindings (values as strings, which is enough for the claims
below — no operation of the subsystem inspects a detail value). -/
structure SecurityEvent where
  id : String
  timestamp : Int
  eventType : SecurityEventType
  severity : SecuritySeverity
  userID : Option String
  ipAddress : String
  userAgent : String
  requestID : String
  endpoint : String
  method : String
  status : Int
  details : Option (List (String × String))
  riskScore : Int
  blocked : Bool
deriving DecidableEq

/-- SecurityAlert, restricted to the fields the analyzers compute from
their inputs and that the claims mention (the uuid ID, wall-clock
Timestamp, free-text Description, Actions and Metadata are emitted
alongside but carry no further state). -/
structure SecurityAlert where
  severity : SecuritySeverity
  title : String
  eventIDs : List String
  riskScore : Int
deriving DecidableEq

/-- The first switch of SecurityAuditor.calculateRiskScore (part_012
lines 413-435): base score by event type; kinds without a case contribute
nothing. -/
def riskBase (t : SecurityEventType) : Int :=
  match t with
  | .loginFailure => 20
  | .accessDenied => 15
  | .rateLimitExceeded => 25
  | .ddosDetected => 50
  | .sqlInjectionAttempt => 40
  | .xssAttempt => 35
  | .suspiciousInput => 30
  | .suspiciousUserAgent => 20
  | .multipleFailures => 35
  | .unusualActivity => 25
  | _ => 0

/-- The second switch of calculateRiskScore (part_012 lines 437-447):
severity adjustment. -/
def severityBonus (s : SecuritySeverity) : Int :=
  match s with
  | .critical => 30
  | .high => 20
  | .medium => 10
  | .low => 5

/-- SecurityAuditor.calculateRiskScore (part_012 lines 410-460): start at
0, add the event-type base, add the severity bonus, add 15 if the event is
blocked, cap at 100. -/
def calculateRiskScore (event : SecurityEvent) : Int :=
  let score : Int := 0
  let score := score + riskBase event.eventType
  let score := score + severityBonus event.severity
  let score := if event.blocked then score + 15 else score
  if score > 100 then 100 else score

theorem riskBase_nonneg (t : SecurityEventType) : 0 ≤ riskBase t := by
  cases t <;> decide

theorem severityBonus_nonneg (s : SecuritySeverity) : 0 ≤ severityBonus s := by
  cases s <;> decide

theorem calculateRiskScore_min (e : SecurityEvent) :
    calculateRiskScore e =
      min (riskBase e.eventType + severityBonus e.severity +
        (if e.blocked then 15 else 0)) 100 := by
  unfold calculateRiskScore
  cases hb : e.blocked <;> simp only [hb, if_true, if_false] <;> split <;> omega

theorem calculateRiskScore_bounds (e : SecurityEvent) :
    0 ≤ calculateRiskScore e ∧ calculateRiskScore e ≤ 100 := by
  rw [calculateRiskScore_min]
  have h1 := riskBase_nonneg e.eventType
  have h2 := severityBonus_nonneg e.severity
  cases e.blocked <;> simp <;> omega

/-!
## SecurityAuditor.LogEvent (part_012 lines 156-198)

NewSecurityAuditor allocates the event channel with capacity 1000.  The
channel is embedded as the list of buffered events; the non-blocking
select-with-default send succeeds exactly when fewer than 1000 events are
buffered, and otherwise LogEvent falls through to logEventDirectly.  The
uuid drawn by uuid.New() and the wall clock time.Now() are passed in as
parameters freshId and now.
-/

/-- The channel capacity chosen in NewSecurityAuditor (part_012 line 159). -/
def eventQueueCapacity : Nat := 1000

/-- The default-filling prefix of LogEvent (part_012 lines 175-189):
generate an id if absent, default the timestamp to now, allocate an empty
details map, and compute the risk score when it is unset (zero). -/
def normalizeEvent (freshId : String) (now : Int) (event : SecurityEvent) :
    SecurityEvent :=
  let event := if event.id = "" then { event with id := freshId } else event
  let event :=
    if event.timestamp = 0 then { event with timestamp := now } else event
  let event :=
    if event.details = none then { event with details := some [] } else event
  if event.riskScore = 0 then
    { event with riskScore := calculateRiskScore event }
  else event

/-- SecurityAuditor.LogEvent (part_012 lines 174-198).  Result: the new
queue contents and, when the select hit the default branch, the event
passed to logEventDirectly. -/
def logEvent (queue : List SecurityEvent) (freshId : String) (now : Int)
    (event : SecurityEvent) : List SecurityEvent × Option SecurityEvent :=
  let e := normalizeEvent freshId now event
  if queue.length < eventQueueCapacity then
    (queue ++ [e], none)
  else
    (queue, some e)

theorem normalizeEvent_riskScore_of_unset (freshId : String) (now : Int)
    (event : SecurityEvent) (h : event.riskScore = 0) :
    0 ≤ (normalizeEvent freshId now event).riskScore ∧
      (normalizeEvent freshId now event).riskScore ≤ 100 := by
  by_cases h1 : event.id = "" <;> by_cases h2 : event.timestamp = 0 <;>
    by_cases h3 : event.details = none <;>
    simp [normalizeEvent, h1, h2, h3, h] <;>
    exact calculateRiskScore_bounds _

theorem normalizeEvent_riskScore_of_set (freshId : String) (now : Int)
    (event : SecurityEvent) (h : event.riskScore ≠ 0) :
    (normalizeEvent freshId now event).riskScore = event.riskScore := by
  by_cases h1 : event.id = "" <;> by_cases h2 : event.timestamp = 0 <;>
    by_cases h3 : event.details = none <;>
    simp [normalizeEvent, h1, h2, h3, h]

/-!
## Analyzers (part_012 lines 483-710)

Each Analyze call is embedded as a function of the analyzer's map state,
the wall-clock instant now at which the worker runs it (the source calls
time.Now() to form the prune cutoff), and the event, returning the new
state and the optional alert.
-/

/-- 15 minutes in nanoseconds — the brute force window (part_012 line 509). -/
def bruteForceWindow : Int := 900000000000

/-- 1 hour in nanoseconds — the suspicious-activity window (line 580). -/
def suspiciousWindow : Int := 3600000000000

/-- 1 hour in nanoseconds — the rate-limit-abuse window (line 670). -/
def rateLimitWindow : Int := 3600000000000

/-- The alert literal built by BruteForceAnalyzer.Analyze (part_012
lines 521-541), restricted to the modelled fields. -/
def bruteForceAlert (eventID : String) : SecurityAlert :=
  { severity := .high
    title := "Brute Force Attack Detected"
    eventIDs := [eventID]
    riskScore := 75 }

/-- BruteForceAnalyzer.Analyze (part_012 lines 497-550): ignore everything
but login failures; append the event timestamp to the address's list,
prune to the last 15 minutes, write the pruned list back; at 5 or more
recent failures emit the alert and delete the address's entry. -/
def bruteForceAnalyze (failedLogins : List (String × List Int)) (now : Int)
    (event : SecurityEvent) :
    List (String × List Int) × Option SecurityAlert :=
  if event.eventType ≠ .loginFailure then
    (failedLogins, none)
  else
    let appended := goSliceGet failedLogins event.ipAddress ++ [event.timestamp]
    let st1 := assocSet failedLogins event.ipAddress appended
    let cutoff := now - bruteForceWindow
    let recentFailures := appended.filter (fun t => decide (cutoff < t))
    let st2 := assocSet st1 event.ipAddress recentFailures
    if 5 ≤ recentFailures.length then
      (assocDel st2 event.ipAddress, some (bruteForceAlert event.id))
    else
      (st2, none)

/-- The worker's sequence of Analyze calls on one analyzer over a list of
(processing instant, event) pairs, collecting the emitted alerts. -/
def bruteForceRun (st : List (String × List Int)) :
    List (Int × SecurityEvent) →
      List (String × List Int) × List SecurityAlert
  | [] => (st, [])
  | (now, e) :: rest =>
      let p := bruteForceAnalyze st now e
      let q := bruteForceRun p.1 rest
      (q.1, p.2.toList ++ q.2)

/-- The userKey computation of SuspiciousActivityAnalyzer.Analyze
(part_012 lines 567-571): user id if present, else source address. -/
def suspiciousKey (event : SecurityEvent) : String :=
  match event.userID with
  | some u => u
  | none => event.ipAddress

/-- The alert literal built by SuspiciousActivityAnalyzer.Analyze
(part_012 lines 613-635), restricted to the modelled fields. -/
def suspiciousAlert (eventIDs : List String) : SecurityAlert :=
  { severity := .medium
    title := "Suspicious Activity Detected"
    eventIDs := eventIDs
    riskScore := 60 }

/-- SuspiciousActivityAnalyzer.Analyze (part_012 lines 566-642): track the
whole event under the user key, prune to the last hour, and once at least
10 events are in the window emit a medium alert when more than 3 are
blocked or more than 5 have risk score above 50; the window is written
back and never cleared. -/
def suspiciousAnalyze (userActivity : List (String × List SecurityEvent))
    (now : Int) (event : SecurityEvent) :
    List (String × List SecurityEvent) × Option SecurityAlert :=
  let userKey := suspiciousKey event
  let appended := goSliceGet userActivity userKey ++ [event]
  let st1 := assocSet userActivity userKey appended
  let cutoff := now - suspiciousWindow
  let recentEvents := appended.filter (fun e => decide (cutoff < e.timestamp))
  let st2 := assocSet st1 userKey recentEvents
  if 10 ≤ recentEvents.length then
    let blockedCount := recentEvents.countP (fun e => e.blocked)
    let highRiskCount := recentEvents.countP (fun e => decide (50 < e.riskScore))
    if 3 < blockedCount ∨ 5 < highRiskCount then
      (st2, some (suspiciousAlert (recentEvents.map (fun e => e.id))))
    else
      (st2, none)
  else
    (st2, none)

/-- The alert literal built by RateLimitAnalyzer.Analyze (part_012
lines 681-701), restricted to the modelled fields. -/
def rateLimitAlert (eventID : String) : SecurityAlert :=
  { severity := .high
    title := "Persistent Rate Limiting"
    eventIDs := [eventID]
    riskScore := 70 }

/-- RateLimitAnalyzer.Analyze (part_012 lines 658-710): only rate-limit
and DDoS events; append, prune to the last hour, write back; at 10 or
more recent events emit the alert and delete the address's entry. -/
def rateLimitAnalyze (rateLimitEvents : List (String × List Int)) (now : Int)
    (event : SecurityEvent) :
    List (String × List Int) × Option SecurityAlert :=
  if event.eventType ≠ .rateLimitExceeded ∧ event.eventType ≠ .ddosDetected then
    (rateLimitEvents, none)
  else
    let appended :=
      goSliceGet rateLimitEvents event.ipAddress ++ [event.timestamp]
    let st1 := assocSet rateLimitEvents event.ipAddress appended
    let cutoff := now - rateLimitWindow
    let recentEvents := appended.filter (fun t => decide (cutoff < t))
    let st2 := assocSet st1 event.ipAddress recentEvents
    if 10 ≤ recentEvents.length then
      (assocDel st2 event.ipAddress, some (rateLimitAlert event.id))
    else
      (st2, none)

/-!
## The background worker (SecurityAuditor.processEvents, part_012
lines 325-337) and SecurityMetrics (lines 712-797)

For one dequeued event the worker logs the event through logEventDirectly
and then iterates over the analyzer list; for each analyzer whose Analyze
returned a nil error and a non-nil alert it logs the alert.  The log sink
is modelled as the list of emitted lines.  A line kind for an error report
exists in the model so that the absence of error logging is expressible;
the source loop contains no logging call for a non-nil err, so no
constructor of the loop ever produces such a line.

The analyzers' returns for the current event are passed in as a list of
(alert, error) outcomes, one per registered analyzer in order.
-/

/-- One analyzer's return value for one event: Analyze(event) gives
(*SecurityAlert, error); `err = some msg` is a non-nil error. -/
structure AnalyzerOutcome where
  alert : Option SecurityAlert
  err : Option String
deriving DecidableEq

/-- One line emitted through the auditor's logrus sink. -/
inductive LogLine where
  | eventLine (e : SecurityEvent)
  | alertLine (a : SecurityAlert)
  | errorLine (msg : String)
deriving DecidableEq

/-- Whether a log line reports an analyzer error. -/
def LogLine.isErrorLine : LogLine → Bool
  | .errorLine _ => true
  | _ => false

/-- The body of the processEvents loop for one dequeued event (part_012
lines 326-336): log the event, then log each alert whose accompanying
error is nil. -/
def processOneEvent (event : SecurityEvent)
    (outcomes : List AnalyzerOutcome) : List LogLine :=
  LogLine.eventLine event ::
    outcomes.filterMap (fun o =>
      match o.err, o.alert with
      | none, some a => some (LogLine.alertLine a)
      | _, _ => none)

/-- SecurityMetrics (part_012 lines 713-725): the counter record. -/
structure SecurityMetrics where
  totalEvents : Int
  blockedRequests : Int
  highRiskEvents : Int
  activeThreats : Int
  loginFailures : Int
  accessDenied : Int
  rateLimitHits : Int
  ddosAttempts : Int
  sqlInjectionAttempts : Int
  xssAttempts : Int
deriving DecidableEq

/-- NewSecurityMetrics (line 728): all counters zero. -/
def newSecurityMetrics : SecurityMetrics :=
  { totalEvents := 0, blockedRequests := 0, highRiskEvents := 0
    activeThreats := 0, loginFailures := 0, accessDenied := 0
    rateLimitHits := 0, ddosAttempts := 0, sqlInjectionAttempts := 0
    xssAttempts := 0 }

/-- SecurityMetrics.IncrementEvent (part_012 lines 733-761). -/
def incrementEvent (sm : SecurityMetrics) (eventType : SecurityEventType)
    (blocked : Bool) (riskScore : Int) : SecurityMetrics :=
  let sm := { sm with totalEvents := sm.totalEvents + 1 }
  let sm :=
    if blocked then { sm with blockedRequests := sm.blockedRequests + 1 }
    else sm
  let sm :=
    if riskScore > 50 then { sm with highRiskEvents := sm.highRiskEvents + 1 }
    else sm
  match eventType with
  | .loginFailure => { sm with loginFailures := sm.loginFailures + 1 }
  | .accessDenied => { sm with accessDenied := sm.accessDenied + 1 }
  | .rateLimitExceeded => { sm with rateLimitHits := sm.rateLimitHits + 1 }
  | .ddosDetected => { sm with ddosAttempts := sm.ddosAttempts + 1 }
  | .sqlInjectionAttempt =>
      { sm with sqlInjectionAttempts := sm.sqlInjectionAttempts + 1 }
  | .xssAttempt => { sm with xssAttempts := sm.xssAttempts + 1 }
  | _ => sm

/-- The worker loop body viewed together with a SecurityMetrics value
living in the same process.  Faithful to the source: processEvents
(part_012 lines 325-337) logs the event and the alerts and contains no
call to SecurityMetrics.IncrementEvent — in fact nothing in the
repository calls IncrementEvent — so the metrics component is returned
unchanged. -/
def processOneEventWithMetrics (sm : SecurityMetrics)
    (event : SecurityEvent) (outcomes : List AnalyzerOutcome) :
    SecurityMetrics × List LogLine :=
  (sm, processOneEvent event outcomes)

/-!
## Theorems
-/

/-- A concrete well-formed security event used by several witnesses. -/
def sampleEvent : SecurityEvent :=
  { id := "evt-1"
    timestamp := 5
    eventType := .loginFailure
    severity := .medium
    userID := none
    ipAddress := "198.51.100.7"
    userAgent := "curl/8.0"
    requestID := "req-1"
    endpoint := "/api/v1/auth/login"
    method := "POST"
    status := 401
    details := some []
    riskScore := 30
    blocked := false }

/-- C1: the Protect middleware does not implement the claimed algorithm.
At the failing input below, the address 203.0.113.7 sends its first
request at t = 0 (allowed, and shouldBlock is false, so no block marker is
ever appended) and a second request 30 seconds later.  The second
request's in-window count including itself is 2 ≤ maxRequests = 100, and
the address has never been blocked, yet Protect denies it: isBlocked
treats any recorded activity within blockDuration as a block. -/
theorem c1_protect_denies_never_blocked_low_count :
    (protect ddosDefault "203.0.113.7" 0).1 = true ∧
    shouldBlock (recordRequest ddosDefault "203.0.113.7" 0) "203.0.113.7" 0 =
      false ∧
    ((goSliceGet (protect ddosDefault "203.0.113.7" 0).2.requests
          "203.0.113.7" ++ [(30000000000 : Int)]).countP
        (fun t => decide ((30000000000 : Int) - ddosDefault.windowDuration < t))
      ≤ ddosDefault.maxRequests) ∧
    (protect (protect ddosDefault "203.0.113.7" 0).2 "203.0.113.7"
        30000000000).1 = false := by
  decide

/-- C10: when Protect denies because isBlocked answered true, it returns
before recordRequest, so the whole tracker state — this address's slice
and every other address's — is returned unchanged. -/
theorem c10_blocked_deny_is_pure (d : DDoSProtection) (ip : String)
    (now : Int) (h : isBlocked d ip now = true) :
    protect d ip now = (false, d) := by
  simp [protect, h]

/-- Witness for C10 at a concrete blocked state: one request recorded at
t = 0, the retry at t = 10ns is inside the 5-minute block window. -/
theorem c10_blocked_deny_is_pure_witness :
    isBlocked { ddosDefault with requests := [("198.51.100.9", [0])] }
        "198.51.100.9" 10 = true ∧
      protect { ddosDefault with requests := [("198.51.100.9", [0])] }
          "198.51.100.9" 10 =
        (false, { ddosDefault with requests := [("198.51.100.9", [0])] }) :=
  ⟨by decide,
   c10_blocked_deny_is_pure
     { ddosDefault with requests := [("198.51.100.9", [0])] }
     "198.51.100.9" 10 (by decide)⟩

/-- C9: LogEvent either enqueues the normalized event (when fewer than
1000 events are buffered) or hands exactly that event to the synchronous
direct-log path; in both cases nothing is dropped. -/
theorem c9_logEvent_enqueue_or_direct (queue : List SecurityEvent)
    (freshId : String) (now : Int) (event : SecurityEvent) :
    (queue.length < eventQueueCapacity →
      logEvent queue freshId now event =
        (queue ++ [normalizeEvent freshId now event], none)) ∧
    (¬ queue.length < eventQueueCapacity →
      logEvent queue freshId now event =
        (queue, some (normalizeEvent freshId now event))) := by
  constructor <;> intro h <;> simp [logEvent, h]

/-- Witness for C9 on the empty queue. -/
theorem c9_logEvent_enqueue_or_direct_witness :
    ([] : List SecurityEvent).length < eventQueueCapacity ∧
      logEvent [] "fresh" 5 sampleEvent =
        ([normalizeEvent "fresh" 5 sampleEvent], none) :=
  ⟨by decide,
   (c9_logEvent_enqueue_or_direct [] "fresh" 5 sampleEvent).1 (by decide)⟩

/-- C2 fails as stated: an event arriving with the caller-supplied risk
score 150 is enqueued with risk score 150, outside [0,100] — LogEvent
only computes (and thereby bounds) the score when it arrives as 0. -/
theorem c2_caller_score_unclamped :
    (logEvent [] "fresh" 0 { sampleEvent with riskScore := 150 }).1.map
        (fun e => e.riskScore) = [150] ∧
      ¬ ((150 : Int) ≤ 100) := by
  decide

/-- C2 (amended): an event whose risk score arrives unset (zero) is
normalized to the computed score, which lies in [0,100]; a nonzero
caller-supplied score is passed through unchanged, clamped nowhere. -/
theorem c2_riskScore_invariant (freshId : String) (now : Int)
    (event : SecurityEvent) :
    (event.riskScore = 0 →
      0 ≤ (normalizeEvent freshId now event).riskScore ∧
        (normalizeEvent freshId now event).riskScore ≤ 100) ∧
    (event.riskScore ≠ 0 →
      (normalizeEvent freshId now event).riskScore = event.riskScore) :=
  ⟨fun h => normalizeEvent_riskScore_of_unset freshId now event h,
   fun h => normalizeEvent_riskScore_of_set freshId now event h⟩

/-- Witness for C2 (amended) on a concrete unset-score event. -/
theorem c2_riskScore_invariant_witness :
    ({ sampleEvent with riskScore := 0 } : SecurityEvent).riskScore = 0 ∧
      0 ≤ (normalizeEvent "fresh" 5
            { sampleEvent with riskScore := 0 }).riskScore ∧
      (normalizeEvent "fresh" 5
            { sampleEvent with riskScore := 0 }).riskScore ≤ 100 :=
  ⟨rfl, (c2_riskScore_invariant "fresh" 5
    { sampleEvent with riskScore := 0 }).1 rfl⟩

/-- C7: the risk score is a pure function of (event kind, severity,
blocked flag); it equals the clamped sum of the kind base, the severity
bonus and the blocked bonus, and lies in [0,100].  The bases keyed low
for failures/denials (20, 15) and high for SQL injection, XSS and DDoS
(40, 35, 50) are fixed by the riskBase definition. -/
theorem c7_riskScore_pure_clamped (e1 e2 : SecurityEvent)
    (ht : e1.eventType = e2.eventType) (hs : e1.severity = e2.severity)
    (hb : e1.blocked = e2.blocked) :
    calculateRiskScore e1 = calculateRiskScore e2 ∧
    calculateRiskScore e1 =
      min (riskBase e1.eventType + severityBonus e1.severity +
        (if e1.blocked then 15 else 0)) 100 ∧
    0 ≤ calculateRiskScore e1 ∧ calculateRiskScore e1 ≤ 100 := by
  refine ⟨?_, calculateRiskScore_min e1, (calculateRiskScore_bounds e1).1,
    (calculateRiskScore_bounds e1).2⟩
  rw [calculateRiskScore_min, calculateRiskScore_min, ht, hs, hb]

/-- A second concrete event: same kind, severity and blocked flag as
sampleEvent, different in every other field. -/
def otherFieldsEvent : SecurityEvent :=
  { sampleEvent with
    id := "other"
    ipAddress := "192.0.2.1"
    userID := some "u-77"
    riskScore := 7 }

/-- Witness for C7: two events agreeing on the three scoring inputs but
differing everywhere else get the same score. -/
theorem c7_riskScore_pure_clamped_witness :
    (sampleEvent.eventType = (otherFieldsEvent : SecurityEvent).eventType) ∧
    calculateRiskScore sampleEvent = calculateRiskScore otherFieldsEvent :=
  ⟨rfl,
   (c7_riskScore_pure_clamped sampleEvent otherFieldsEvent rfl rfl rfl).1⟩

/-- C5 fails in one conjunct: the worker does keep running the remaining
analyzers after one returns an error, but the error is not logged — the
processEvents loop tests err == nil only to decide whether to log the
alert and otherwise discards the error.  Concretely, with three analyzer
outcomes where the second returns an error (alongside an alert, which is
therefore dropped), the emitted log lines are the event line and the
first and third alerts, and no error line appears anywhere. -/
theorem c5_error_not_logged :
    processOneEvent sampleEvent
        [{ alert := some (bruteForceAlert "a1"), err := none },
         { alert := some (rateLimitAlert "a2"), err := some "analyzer boom" },
         { alert := some (suspiciousAlert ["a3"]), err := none }] =
      [LogLine.eventLine sampleEvent,
       LogLine.alertLine (bruteForceAlert "a1"),
       LogLine.alertLine (suspiciousAlert ["a3"])] ∧
    (processOneEvent sampleEvent
        [{ alert := some (bruteForceAlert "a1"), err := none },
         { alert := some (rateLimitAlert "a2"), err := some "analyzer boom" },
         { alert := some (suspiciousAlert ["a3"]), err := none }]).countP
      LogLine.isErrorLine = 0 := by
  decide

/-- C5 (amended): an analyzer returning a non-nil error contributes
nothing for that event — the log output equals the output with that
analyzer's outcome replaced by the empty outcome, so every other
analyzer's alert still appears and the loop continues; the error itself
is silently discarded, never logged. -/
theorem c5_analyzer_error_isolated (event : SecurityEvent)
    (pre post : List AnalyzerOutcome) (o : AnalyzerOutcome)
    (h : o.err ≠ none) :
    processOneEvent event (pre ++ o :: post) =
      processOneEvent event (pre ++ { alert := none, err := none } :: post) ∧
    ∀ l ∈ processOneEvent event (pre ++ o :: post), l.isErrorLine = false := by
  constructor
  · rcases o with ⟨al, er⟩
    cases er with
    | none => exact absurd rfl h
    | some msg =>
        simp [processOneEvent, List.filterMap_append, List.filterMap_cons]
  · intro l hl
    simp only [processOneEvent, List.mem_cons, List.mem_filterMap] at hl
    rcases hl with rfl | ⟨o2, _, heq⟩
    · rfl
    · rcases o2 with ⟨al, er⟩
      cases er <;> cases al <;> simp at heq <;> rw [← heq] <;> rfl

/-- Witness for C5 (amended): second outcome errors, alert of the third
still logged, nothing dropped from the rest. -/
theorem c5_analyzer_error_isolated_witness :
    ({ alert := some (rateLimitAlert "a2"), err := some "analyzer boom" }
        : AnalyzerOutcome).err ≠ none ∧
    processOneEvent sampleEvent
        [{ alert := some (bruteForceAlert "a1"), err := none },
         { alert := some (rateLimitAlert "a2"), err := some "analyzer boom" }] =
      processOneEvent sampleEvent
        [{ alert := some (bruteForceAlert "a1"), err := none },
         { alert := none, err := none }] :=
  ⟨by decide,
   (c5_analyzer_error_isolated sampleEvent
      [{ alert := some (bruteForceAlert "a1"), err := none }] []
      { alert := some (rateLimitAlert "a2"), err := some "analyzer boom" }
      (by decide)).1⟩

/-- C6 fails: the metrics counters are never incremented by the pipeline.
Processing an event through the worker loop leaves a process-local
SecurityMetrics value untouched (nothing in the repository calls
IncrementEvent), so after processing one event the total-events counter
still reads 0, not 1 as the claim requires. -/
theorem c6_pipeline_never_increments :
    (processOneEventWithMetrics newSecurityMetrics sampleEvent []).1 =
      newSecurityMetrics ∧
    (processOneEventWithMetrics newSecurityMetrics sampleEvent
        []).1.totalEvents = 0 ∧
    ¬ ((0 : Int) = 0 + 1) := by
  decide

/-- C6 (amended): SecurityMetrics.IncrementEvent itself, when invoked,
performs exactly the increments the claim describes — total events by
one, blocked requests by one iff blocked, high-risk events by one iff the
risk score exceeds 50, and the per-kind counter matching the event kind
by one — but the event-processing worker never invokes it, so processed
events leave every counter unchanged. -/
theorem c6_incrementEvent_counts (sm : SecurityMetrics)
    (et : SecurityEventType) (b : Bool) (rs : Int) (e : SecurityEvent)
    (outcomes : List AnalyzerOutcome) :
    (incrementEvent sm et b rs).totalEvents = sm.totalEvents + 1 ∧
    (incrementEvent sm et b rs).blockedRequests =
      sm.blockedRequests + (if b then 1 else 0) ∧
    (incrementEvent sm et b rs).highRiskEvents =
      sm.highRiskEvents + (if rs > 50 then 1 else 0) ∧
    (incrementEvent sm et b rs).loginFailures =
      sm.loginFailures + (if et = .loginFailure then 1 else 0) ∧
    (incrementEvent sm et b rs).accessDenied =
      sm.accessDenied + (if et = .accessDenied then 1 else 0) ∧
    (incrementEvent sm et b rs).rateLimitHits =
      sm.rateLimitHits + (if et = .rateLimitExceeded then 1 else 0) ∧
    (incrementEvent sm et b rs).ddosAttempts =
      sm.ddosAttempts + (if et = .ddosDetected then 1 else 0) ∧
    (incrementEvent sm et b rs).sqlInjectionAttempts =
      sm.sqlInjectionAttempts + (if et = .sqlInjectionAttempt then 1 else 0) ∧
    (incrementEvent sm et b rs).xssAttempts =
      sm.xssAttempts + (if et = .xssAttempt then 1 else 0) ∧
    (processOneEventWithMetrics sm e outcomes).1 = sm := by
  cases et <;> cases b <;> rcases Decidable.em ((50 : Int) < rs) with hr | hr <;>
    simp [incrementEvent, processOneEventWithMetrics, hr]

theorem cleanupSweep_pruned (d : DDoSProtection) (now : Int) :
    ∀ p ∈ (cleanupSweep d now).requests,
      p.2 ≠ [] ∧ ∀ t ∈ p.2, now - d.blockDuration * 2 < t := by
  intro p hp
  simp only [cleanupSweep, List.mem_filterMap] at hp
  obtain ⟨q, _, heq⟩ := hp
  split at heq
  · exact absurd heq (by simp)
  · next he =>
      have hp2 :
          p = (q.1, q.2.filter (fun t => decide (now - d.blockDuration * 2 < t))) :=
        (Option.some.inj heq).symm
      subst hp2
      refine ⟨?_, ?_⟩
      · intro hnil
        apply he
        have hnil2 :
            q.2.filter (fun t => decide (now - d.blockDuration * 2 < t)) = [] :=
          hnil
        rw [hnil2]
        rfl
      · intro t ht
        simpa using List.of_mem_filter ht

theorem bruteForce_state_pruned (st : List (String × List Int)) (now : Int)
    (e : SecurityEvent) (h : e.eventType = .loginFailure) :
    ∀ t ∈ goSliceGet (bruteForceAnalyze st now e).1 e.ipAddress,
      now - bruteForceWindow < t := by
  intro t ht
  simp only [bruteForceAnalyze, h, ne_eq, not_true_eq_false, if_false,
    ite_false] at ht
  split at ht
  · simp [goSliceGet, assocGet_del_self] at ht
  · simp only [goSliceGet, assocGet_set_self, Option.getD_some] at ht
    simpa using List.of_mem_filter ht

theorem suspicious_state_pruned (st : List (String × List SecurityEvent))
    (now : Int) (e : SecurityEvent) :
    ∀ ev ∈ goSliceGet (suspiciousAnalyze st now e).1 (suspiciousKey e),
      now - suspiciousWindow < ev.timestamp := by
  intro ev hev
  simp only [suspiciousAnalyze] at hev
  split at hev
  · split at hev <;>
      · simp only [goSliceGet, assocGet_set_self, Option.getD_some] at hev
        simpa using List.of_mem_filter hev
  · simp only [goSliceGet, assocGet_set_self, Option.getD_some] at hev
    simpa using List.of_mem_filter hev

theorem rateLimit_state_pruned (st : List (String × List Int)) (now : Int)
    (e : SecurityEvent)
    (h : e.eventType = .rateLimitExceeded ∨ e.eventType = .ddosDetected) :
    ∀ t ∈ goSliceGet (rateLimitAnalyze st now e).1 e.ipAddress,
      now - rateLimitWindow < t := by
  intro t ht
  rcases h with h | h <;>
    simp only [rateLimitAnalyze, h, ne_eq, not_true_eq_false, false_and,
      and_false, if_false, ite_false] at ht <;>
    split at ht
  · simp [goSliceGet, assocGet_del_self] at ht
  · simp only [goSliceGet, assocGet_set_self, Option.getD_some] at ht
    simpa using List.of_mem_filter ht
  · simp [goSliceGet, assocGet_del_self] at ht
  · simp only [goSliceGet, assocGet_set_self, Option.getD_some] at ht
    simpa using List.of_mem_filter ht

theorem bruteForce_empty_written_back (st : List (String × List Int))
    (now : Int) (e : SecurityEvent) (h : e.eventType = .loginFailure)
    (hemp : (goSliceGet st e.ipAddress ++ [e.timestamp]).filter
        (fun t => decide (now - bruteForceWindow < t)) = []) :
    assocGet (bruteForceAnalyze st now e).1 e.ipAddress = some [] := by
  simp [bruteForceAnalyze, h, hemp, assocGet_set_self]

/-- C4 fails in its removal half for the analyzers: write-back of the
pruned list always happens, even when it is empty (last conjunct), so a
key can be retained mapping to an empty list — see the counterexample
theorem.  The rest holds, stated here as the amended claim: after the
DDoS cleanup sweep every surviving key has a nonempty list with all
entries inside the 2×blockDuration horizon (empty keys are deleted
there), and after each analyzer's Analyze the key's stored window
contains no entry older than that analyzer's horizon. -/
theorem c4_prune_invariant :
    (∀ (d : DDoSProtection) (now : Int), ∀ p ∈ (cleanupSweep d now).requests,
      p.2 ≠ [] ∧ ∀ t ∈ p.2, now - d.blockDuration * 2 < t) ∧
    (∀ (st : List (String × List Int)) (now : Int) (e : SecurityEvent),
      e.eventType = .loginFailure →
      ∀ t ∈ goSliceGet (bruteForceAnalyze st now e).1 e.ipAddress,
        now - bruteForceWindow < t) ∧
    (∀ (st : List (String × List SecurityEvent)) (now : Int)
        (e : SecurityEvent),
      ∀ ev ∈ goSliceGet (suspiciousAnalyze st now e).1 (suspiciousKey e),
        now - suspiciousWindow < ev.timestamp) ∧
    (∀ (st : List (String × List Int)) (now : Int) (e : SecurityEvent),
      e.eventType = .rateLimitExceeded ∨ e.eventType = .ddosDetected →
      ∀ t ∈ goSliceGet (rateLimitAnalyze st now e).1 e.ipAddress,
        now - rateLimitWindow < t) ∧
    (∀ (st : List (String × List Int)) (now : Int) (e : SecurityEvent),
      e.eventType = .loginFailure →
      (goSliceGet st e.ipAddress ++ [e.timestamp]).filter
          (fun t => decide (now - bruteForceWindow < t)) = [] →
      assocGet (bruteForceAnalyze st now e).1 e.ipAddress = some []) :=
  ⟨cleanupSweep_pruned, bruteForce_state_pruned, suspicious_state_pruned,
   rateLimit_state_pruned, bruteForce_empty_written_back⟩

/-- Witness for C4 (amended) at a concrete login failure from the empty
state. -/
theorem c4_prune_invariant_witness :
    sampleEvent.eventType = SecurityEventType.loginFailure ∧
    ∀ t ∈ goSliceGet (bruteForceAnalyze [] 0 sampleEvent).1
        sampleEvent.ipAddress, 0 - bruteForceWindow < t :=
  ⟨rfl, c4_prune_invariant.2.1 [] 0 sampleEvent rfl⟩

/-- C4 counterexample: a login-failure event whose timestamp (0) is
already older than the 15-minute window at processing time (now = 1000s)
prunes the address's list to empty, and BruteForceAnalyzer.Analyze writes
the empty list back — the key stays in the backing map instead of being
removed. -/
theorem c4_empty_key_retained :
    bruteForceAnalyze [] 1000000000000
        { sampleEvent with ipAddress := "192.0.2.33", timestamp := 0 } =
      ([("192.0.2.33", [])], none) ∧
    assocHas
      (bruteForceAnalyze [] 1000000000000
          { sampleEvent with ipAddress := "192.0.2.33", timestamp := 0 }).1
      "192.0.2.33" = true ∧
    goSliceGet
      (bruteForceAnalyze [] 1000000000000
          { sampleEvent with ipAddress := "192.0.2.33", timestamp := 0 }).1
      "192.0.2.33" = [] := by
  decide

/-- The pruned in-window list on which SuspiciousActivityAnalyzer bases
its decision for one call (part_012 lines 577-587): the key's stored
events plus the incoming one, filtered to the last hour. -/
def suspiciousRecent (st : List (String × List SecurityEvent)) (now : Int)
    (e : SecurityEvent) : List SecurityEvent :=
  (goSliceGet st (suspiciousKey e) ++ [e]).filter
    (fun x => decide (now - suspiciousWindow < x.timestamp))

/-- An event for the two concrete C8 scenarios: fixed actor user-1,
timestamp 0, varying only the blocked flag and risk score. -/
def saEvent (b : Bool) (rs : Int) : SecurityEvent :=
  { id := "e"
    timestamp := 0
    eventType := .unusualActivity
    severity := .low
    userID := some "user-1"
    ipAddress := "203.0.113.50"
    userAgent := ""
    requestID := ""
    endpoint := ""
    method := ""
    status := 0
    details := some []
    riskScore := rs
    blocked := b }

/-- Nine in-window events for user-1 of which four are blocked. -/
def stFourBlocked : List (String × List SecurityEvent) :=
  [("user-1",
    [saEvent true 10, saEvent true 10, saEvent true 10, saEvent true 10,
     saEvent false 10, saEvent false 10, saEvent false 10, saEvent false 10,
     saEvent false 10])]

/-- Nine in-window events for user-1: two blocked, three with risk score
above 50, the rest plain. -/
def stTwoBlockedThreeHigh : List (String × List SecurityEvent) :=
  [("user-1",
    [saEvent true 10, saEvent true 10, saEvent false 60, saEvent false 60,
     saEvent false 60, saEvent false 10, saEvent false 10, saEvent false 10,
     saEvent false 10])]

/-- The tenth event of both scenarios: unblocked, low risk. -/
def evTenth : SecurityEvent := saEvent false 10

/-- C8: SuspiciousActivityAnalyzer emits an alert exactly when at least
10 events are in the actor's 1-hour window and more than 3 of them are
blocked or more than 5 have risk score above 50; any emitted alert is
medium-severity and references the ids of all contributing in-window
events; the written-back window is the full pruned list (never cleared on
trigger).  In particular, 10 in-window events with 4 blocked fire, and 10
events with 2 blocked and 3 high-risk do not. -/
theorem c8_suspicious_threshold (st : List (String × List SecurityEvent))
    (now : Int) (e : SecurityEvent) :
    ((suspiciousAnalyze st now e).2.isSome = true ↔
      (10 ≤ (suspiciousRecent st now e).length ∧
        (3 < (suspiciousRecent st now e).countP (fun x => x.blocked) ∨
          5 < (suspiciousRecent st now e).countP
            (fun x => decide (50 < x.riskScore))))) ∧
    (∀ a, (suspiciousAnalyze st now e).2 = some a →
      a.severity = SecuritySeverity.medium ∧
      a.eventIDs = (suspiciousRecent st now e).map (fun x => x.id) ∧
      a.riskScore = 60) ∧
    assocGet (suspiciousAnalyze st now e).1 (suspiciousKey e) =
      some (suspiciousRecent st now e) ∧
    (suspiciousAnalyze stFourBlocked 0 evTenth).2.isSome = true ∧
    (suspiciousAnalyze stTwoBlockedThreeHigh 0 evTenth).2 = none := by
  refine ⟨?_, ?_, ?_, by decide, by decide⟩
  · simp only [suspiciousAnalyze, suspiciousRecent]
    split_ifs with h1 h2
    · exact iff_of_true (by simp) ⟨h1, h2⟩
    · exact iff_of_false (by simp) (fun hc => h2 hc.2)
    · exact iff_of_false (by simp) (fun hc => h1 hc.1)
  · intro a ha
    simp only [suspiciousAnalyze, suspiciousRecent] at ha ⊢
    split_ifs at ha with h1 h2 <;>
      first
      | (cases ha; simp [suspiciousAlert])
      | exact absurd ha (by simp)
  · simp only [suspiciousAnalyze, suspiciousRecent]
    split_ifs <;> exact assocGet_set_self _ _ _

/-- Witness for C8 at the four-blocked scenario: the alert exists, is
medium-severity, and references the ten contributing event ids. -/
theorem c8_suspicious_threshold_witness :
    (suspiciousAnalyze stFourBlocked 0 evTenth).2 =
      some (suspiciousAlert
        ["e", "e", "e", "e", "e", "e", "e", "e", "e", "e"]) ∧
    (suspiciousAlert
        ["e", "e", "e", "e", "e", "e", "e", "e", "e", "e"]).severity =
      SecuritySeverity.medium ∧
    (suspiciousAlert
        ["e", "e", "e", "e", "e", "e", "e", "e", "e", "e"]).eventIDs =
      (suspiciousRecent stFourBlocked 0 evTenth).map (fun x => x.id) := by
  have h := (c8_suspicious_threshold stFourBlocked 0 evTenth).2.1
    (suspiciousAlert ["e", "e", "e", "e", "e", "e", "e", "e", "e", "e"])
    (by decide)
  exact ⟨by decide, h.1, h.2.1⟩

/-- A login-failure event from a given address with a given timestamp, as
LogLoginFailure constructs it (part_012 lines 216-228) after LogEvent
normalization: medium severity, computed risk score 30, not blocked. -/
def bfEvent (ip : String) (t : Int) (eid : String) : SecurityEvent :=
  { id := eid
    timestamp := t
    eventType := .loginFailure
    severity := .medium
    userID := none
    ipAddress := ip
    userAgent := ""
    requestID := ""
    endpoint := ""
    method := ""
    status := 0
    details := some []
    riskScore := 30
    blocked := false }

theorem bruteForce_ignores_other (st : List (String × List Int)) (now : Int)
    (e : SecurityEvent) (h : e.eventType ≠ SecurityEventType.loginFailure) :
    bruteForceAnalyze st now e = (st, none) := by
  simp [bruteForceAnalyze, h]

theorem bruteForceAnalyze_single (ip eid : String) (ts : List Int)
    (t now : Int) :
    bruteForceAnalyze [(ip, ts)] now (bfEvent ip t eid) =
      (if 5 ≤ ((ts ++ [t]).filter
            (fun x => decide (now - bruteForceWindow < x))).length
        then (([] : List (String × List Int)), some (bruteForceAlert eid))
        else ([(ip, (ts ++ [t]).filter
            (fun x => decide (now - bruteForceWindow < x)))], none)) := by
  have hg : goSliceGet [(ip, ts)] ip = ts := by
    simp [goSliceGet, assocGet_cons_self]
  simp only [bruteForceAnalyze, bfEvent, hg, ne_eq, not_true_eq_false,
    if_false, ite_false]
  split <;> simp [assocSet, assocDel]

theorem bruteForceAnalyze_fresh (ip eid : String) (t now : Int) :
    bruteForceAnalyze [] now (bfEvent ip t eid) =
      (if 5 ≤ (([t] : List Int).filter
            (fun x => decide (now - bruteForceWindow < x))).length
        then (([] : List (String × List Int)), some (bruteForceAlert eid))
        else ([(ip, ([t] : List Int).filter
            (fun x => decide (now - bruteForceWindow < x)))], none)) := by
  simp only [bruteForceAnalyze, bfEvent, goSliceGet, assocGet_nil,
    Option.getD_none, List.nil_append, ne_eq, not_true_eq_false, if_false,
    ite_false]
  split <;> simp [assocSet, assocDel]

theorem bruteForceRun_gap (ip eid : String) :
    ∀ (gaps : List Int) (tprev : Int),
      List.Chain (fun a b => a + bruteForceWindow < b) tprev gaps →
      ∃ tl : Int,
        bruteForceRun [(ip, [tprev])]
            (gaps.map (fun t => (t, bfEvent ip t eid))) =
          ([(ip, [tl])], []) := by
  intro gaps
  induction gaps with
  | nil => exact fun tprev _ => ⟨tprev, rfl⟩
  | cons t rest ih =>
      intro tprev hch
      rw [List.chain_cons] at hch
      obtain ⟨hab, hrest⟩ := hch
      have hW : (0 : Int) < bruteForceWindow := by norm_num [bruteForceWindow]
      have fstep : ([tprev, t] : List Int).filter
          (fun x => decide (t - bruteForceWindow < x)) = [t] := by
        simp only [List.filter_cons, List.filter_nil, decide_eq_true_eq]
        rw [if_neg (by omega), if_pos (by omega)]
      have hstep : bruteForceAnalyze [(ip, [tprev])] t (bfEvent ip t eid) =
          ([(ip, [t])], none) := by
        rw [bruteForceAnalyze_single]
        simp only [List.cons_append, List.nil_append]
        rw [fstep]
        simp
      obtain ⟨tl, htl⟩ := ih t hrest
      exact ⟨tl, by simp [bruteForceRun, hstep, htl]⟩

/-- C3: (a) non-login-failure events leave the BruteForceAnalyzer state
untouched and never alert; (b) five login failures from one address with
nondecreasing timestamps spanning less than 15 minutes, each processed at
its own timestamp, produce exactly one alert — the high-severity
brute-force alert, fired at the fifth — and clear the address's window,
so a sixth failure immediately after does not re-trigger (the run over
all six events emits exactly one alert and leaves only the sixth
timestamp stored); (c) failures each more than 15 minutes after the
previous never accumulate to the threshold: such a run emits no alert at
all. -/
theorem c3_bruteforce_pattern (ip eid : String) (t1 t2 t3 t4 t5 t6 : Int)
    (h12 : t1 ≤ t2) (h23 : t2 ≤ t3) (h34 : t3 ≤ t4) (h45 : t4 ≤ t5)
    (hspan : t5 - t1 < bruteForceWindow)
    (t0 : Int) (gaps : List Int)
    (hchain : List.Chain (fun a b => a + bruteForceWindow < b) t0 gaps)
    (st : List (String × List Int)) (now : Int) (e : SecurityEvent)
    (hother : e.eventType ≠ SecurityEventType.loginFailure) :
    bruteForceAnalyze st now e = (st, none) ∧
    (bruteForceAlert eid).severity = SecuritySeverity.high ∧
    bruteForceRun []
        [(t1, bfEvent ip t1 eid), (t2, bfEvent ip t2 eid),
         (t3, bfEvent ip t3 eid), (t4, bfEvent ip t4 eid),
         (t5, bfEvent ip t5 eid), (t6, bfEvent ip t6 eid)] =
      ([(ip, [t6])], [bruteForceAlert eid]) ∧
    (bruteForceRun []
        ((t0 :: gaps).map (fun t => (t, bfEvent ip t eid)))).2 = [] := by
  have hW : (0 : Int) < bruteForceWindow := by norm_num [bruteForceWindow]
  refine ⟨bruteForce_ignores_other st now e hother, rfl, ?_, ?_⟩
  · have f1 : ([t1] : List Int).filter
        (fun x => decide (t1 - bruteForceWindow < x)) = [t1] := by
      rw [List.filter_eq_self]
      intro a ha
      simp only [List.mem_singleton] at ha
      subst ha
      simp only [decide_eq_true_eq]
      omega
    have f2 : ([t1, t2] : List Int).filter
        (fun x => decide (t2 - bruteForceWindow < x)) = [t1, t2] := by
      rw [List.filter_eq_self]
      intro a ha
      simp only [List.mem_cons, List.not_mem_nil, or_false] at ha
      rcases ha with rfl | rfl <;> simp only [decide_eq_true_eq] <;> omega
    have f3 : ([t1, t2, t3] : List Int).filter
        (fun x => decide (t3 - bruteForceWindow < x)) = [t1, t2, t3] := by
      rw [List.filter_eq_self]
      intro a ha
      simp only [List.mem_cons, List.not_mem_nil, or_false] at ha
      rcases ha with rfl | rfl | rfl <;> simp only [decide_eq_true_eq] <;>
        omega
    have f4 : ([t1, t2, t3, t4] : List Int).filter
        (fun x => decide (t4 - bruteForceWindow < x)) = [t1, t2, t3, t4] := by
      rw [List.filter_eq_self]
      intro a ha
      simp only [List.mem_cons, List.not_mem_nil, or_false] at ha
      rcases ha with rfl | rfl | rfl | rfl <;>
        simp only [decide_eq_true_eq] <;> omega
    have f5 : ([t1, t2, t3, t4, t5] : List Int).filter
        (fun x => decide (t5 - bruteForceWindow < x)) =
          [t1, t2, t3, t4, t5] := by
      rw [List.filter_eq_self]
      intro a ha
      simp only [List.mem_cons, List.not_mem_nil, or_false] at ha
      rcases ha with rfl | rfl | rfl | rfl | rfl <;>
        simp only [decide_eq_true_eq] <;> omega
    have f6 : ([t6] : List Int).filter
        (fun x => decide (t6 - bruteForceWindow < x)) = [t6] := by
      rw [List.filter_eq_self]
      intro a ha
      simp only [List.mem_singleton] at ha
      subst ha
      simp only [decide_eq_true_eq]
      omega
    have s1 : bruteForceAnalyze [] t1 (bfEvent ip t1 eid) =
        ([(ip, [t1])], none) := by
      rw [bruteForceAnalyze_fresh, f1]; simp
    have s2 : bruteForceAnalyze [(ip, [t1])] t2 (bfEvent ip t2 eid) =
        ([(ip, [t1, t2])], none) := by
      rw [bruteForceAnalyze_single]
      simp only [List.cons_append, List.nil_append]
      rw [f2]; simp
    have s3 : bruteForceAnalyze [(ip, [t1, t2])] t3 (bfEvent ip t3 eid) =
        ([(ip, [t1, t2, t3])], none) := by
      rw [bruteForceAnalyze_single]
      simp only [List.cons_append, List.nil_append]
      rw [f3]; simp
    have s4 : bruteForceAnalyze [(ip, [t1, t2, t3])] t4 (bfEvent ip t4 eid) =
        ([(ip, [t1, t2, t3, t4])], none) := by
      rw [bruteForceAnalyze_single]
      simp only [List.cons_append, List.nil_append]
      rw [f4]; simp
    have s5 : bruteForceAnalyze [(ip, [t1, t2, t3, t4])] t5
        (bfEvent ip t5 eid) = ([], some (bruteForceAlert eid)) := by
      rw [bruteForceAnalyze_single]
      simp only [List.cons_append, List.nil_append]
      rw [f5]; simp
    have s6 : bruteForceAnalyze [] t6 (bfEvent ip t6 eid) =
        ([(ip, [t6])], none) := by
      rw [bruteForceAnalyze_fresh, f6]; simp
    simp [bruteForceRun, s1, s2, s3, s4, s5, s6]
  · have f0 : ([t0] : List Int).filter
        (fun x => decide (t0 - bruteForceWindow < x)) = [t0] := by
      rw [List.filter_eq_self]
      intro a ha
      simp only [List.mem_singleton] at ha
      subst ha
      simp only [decide_eq_true_eq]
      omega
    have s0 : bruteForceAnalyze [] t0 (bfEvent ip t0 eid) =
        ([(ip, [t0])], none) := by
      rw [bruteForceAnalyze_fresh, f0]; simp
    obtain ⟨tl, htl⟩ := bruteForceRun_gap ip eid gaps t0 hchain
    simp [bruteForceRun, s0, htl]

/-- Witness for C3: address 9.9.9.9 failing at t = 0..4 ns (well inside
15 minutes) then at t = 5; the gap scenario uses failures at 0 and 1000s
(more than 15 minutes apart); the ignored event is a logout. -/
theorem c3_bruteforce_pattern_witness :
    ((0 : Int) ≤ 1 ∧ (4 : Int) - 0 < bruteForceWindow ∧
      List.Chain (fun a b => a + bruteForceWindow < b) 0 [1000000000000] ∧
      ({ sampleEvent with eventType := SecurityEventType.logout }
          : SecurityEvent).eventType ≠ SecurityEventType.loginFailure) ∧
    bruteForceAnalyze [] 0 { sampleEvent with eventType := .logout } =
      ([], none) ∧
    bruteForceRun []
        [(0, bfEvent "9.9.9.9" 0 "f"), (1, bfEvent "9.9.9.9" 1 "f"),
         (2, bfEvent "9.9.9.9" 2 "f"), (3, bfEvent "9.9.9.9" 3 "f"),
         (4, bfEvent "9.9.9.9" 4 "f"), (5, bfEvent "9.9.9.9" 5 "f")] =
      ([("9.9.9.9", [5])], [bruteForceAlert "f"]) ∧
    (bruteForceRun []
        (([0, 1000000000000] : List Int).map
          (fun t => (t, bfEvent "9.9.9.9" t "f")))).2 = [] := by
  have hch : List.Chain (fun a b => a + bruteForceWindow < b) 0
      [1000000000000] :=
    List.Chain.cons (by decide) List.Chain.nil
  have h := c3_bruteforce_pattern "9.9.9.9" "f" 0 1 2 3 4 5 (by decide)
    (by decide) (by decide) (by decide) (by decide) 0 [1000000000000]
    hch [] 0 { sampleEvent with eventType := .logout } (by decide)
  exact ⟨⟨by decide, by decide, hch, by decide⟩, h.1, h.2.2.1, h.2.2.2⟩
